import Mathlib

/-
Shallow embedding of the passage-retrieval and answer-synthesis pipeline of the
query-pdf-genie repository.

The repository carries two iterations of its single utility module:
  * namespace `V1` embeds `src/unnamed/part_002` (the earlier iteration, the one
    containing `findRelevantPassages`);
  * namespace `V2` embeds the first iteration stored in
    `src/src/utils/PDFServices.ts` (the current module: documents carry
    `isProcessing` / `isProcessed` flags, the local strategy is the regex-based
    `getTransformersAnswer`).

External effects are modelled by explicit parameters:
  * an HTTP call to a remote provider is represented by a `FetchOutcome` value
    describing what the network returned (success body, non-2xx status with the
    parsed error payload, or a thrown transport/parse exception);
  * PDF text extraction is represented by an `ExtractOutcome` value;
  * the `nanoid()` fresh id is passed in as a parameter.
A function quantified over all outcomes therefore models a run under every
possible environment behaviour; a result that is equal for all outcomes models
a computation that never consulted the network.

JavaScript string primitives are embedded for the Basic Latin (ASCII) range in
namespace `Js`; the app only feeds them ASCII message text in the concrete
scenarios below, and the general theorems are statements about this model.
-/

namespace PDFGenie

namespace Js

/-- Word character of the regex class used by `replace(/[^\w\s]/g, ...)`:
letters, digits and underscore. -/
def isWordChar (c : Char) : Bool :=
  c.isAlpha || c.isDigit || c == '_'

/-- `String.toLowerCase()` on the ASCII range, applied per character. -/
def toLower (s : String) : String :=
  String.mk (s.data.map Char.toLower)

/-- `String.replace(/[^\w\s]/g, "")`: delete every character that is neither a
word character nor whitespace. -/
def stripPunct (s : String) : String :=
  String.mk (s.data.filter (fun c => isWordChar c || c.isWhitespace))

/-- Accumulator-style splitter behind `split(/\s+/)`. -/
def splitWsAux : List Char → List Char → List String
  | [], acc => if acc.isEmpty then [] else [String.mk acc.reverse]
  | c :: cs, acc =>
    if c.isWhitespace then
      if acc.isEmpty then splitWsAux cs []
      else String.mk acc.reverse :: splitWsAux cs []
    else splitWsAux cs (c :: acc)

/-- `String.split(/\s+/)` restricted to ASCII whitespace, except that a leading
empty token produced by JavaScript when the string starts with whitespace is
dropped here; every use site filters tokens by a positive length bound, so the
two readings agree on all keyword computations. -/
def splitWs (s : String) : List String :=
  splitWsAux s.data []

/-- Character-list test: does the second list start with the first one. -/
def startsWith : List Char → List Char → Bool
  | [], _ => true
  | _ :: _, [] => false
  | a :: as, b :: bs => a == b && startsWith as bs

/-- Character-list substring test used to embed `String.includes`. -/
def containsAt (pat : List Char) : List Char → Bool
  | [] => pat.isEmpty
  | c :: cs => startsWith pat (c :: cs) || containsAt pat cs

/-- `String.includes(pat)`. -/
def includes (s pat : String) : Bool :=
  containsAt pat.data s.data

/-- `String.substring(0, n)`: the first `n` characters (the app only feeds it
ASCII, where JavaScript UTF-16 units and characters coincide). -/
def substrTo (s : String) (n : Nat) : String :=
  String.mk (s.data.take n)

/-- `String.trim()`: strip whitespace from both ends. -/
def trim (s : String) : String :=
  String.mk (((s.data.dropWhile Char.isWhitespace).reverse.dropWhile Char.isWhitespace).reverse)

/-- `Array.join(sep)`. -/
def join (sep : String) : List String → String
  | [] => ""
  | [x] => x
  | x :: y :: xs => x ++ sep ++ join sep (y :: xs)

/-- Does the character list end of the accumulated sentence (stored reversed)
sit on sentence-ending punctuation; used by the lookbehind split below. -/
def sentEnd : List Char → Bool
  | p :: _ => p == '.' || p == '!' || p == '?'
  | [] => false

/-- State machine behind `split(/(?<=[.!?])\s+/)`: `acc` is the reversed
current sentence, the Bool flag records that a whitespace separator run is
being consumed. -/
def splitSentencesAux : List Char → List Char → Bool → List String
  | [], acc, _ => [String.mk acc.reverse]
  | c :: cs, acc, false =>
    if c.isWhitespace && sentEnd acc then
      String.mk acc.reverse :: splitSentencesAux cs [] true
    else
      splitSentencesAux cs (c :: acc) false
  | c :: cs, _, true =>
    if c.isWhitespace then splitSentencesAux cs [] true
    else splitSentencesAux cs [c] false

/-- `String.split(/(?<=[.!?])\s+/)`: break after sentence-ending punctuation
followed by a (maximal, consumed) whitespace run. -/
def splitSentences (s : String) : List String :=
  splitSentencesAux s.data [] false

/-- `a || b` of JavaScript applied to a possibly missing error-message field:
a missing or empty message falls back to the second string. -/
def orElse (a : Option String) (b : String) : String :=
  match a with
  | none => b
  | some m => if m == "" then b else m

/-- `(l.map f).flatten`, the embedding of `Array.flatMap`. -/
def flatMap (l : List α) (f : α → List β) : List β :=
  (l.map f).flatten

end Js

/-- Outcome of one `fetch` call to a remote provider, as observed by the
calling code: `ok body` is a 2xx response whose JSON parsed into the expected
shape with `body` the generated text; `notOk status errMsg statusText` is a
non-2xx response whose error JSON carried the optional `error.message` field
`errMsg`; `exn` is any thrown transport failure, JSON-parse failure or
unexpected response shape. -/
inductive FetchOutcome where
  | ok (body : String)
  | notOk (status : Nat) (errMsg : Option String) (statusText : String)
  | exn
deriving DecidableEq, Repr

/-- Outcome of `extractTextFromPDF`: the per-page texts, or the (stringified)
thrown error. -/
inductive ExtractOutcome where
  | ok (pages : List String)
  | exn (e : String)
deriving DecidableEq, Repr

/-- The relevant parts of a browser `File`: its name and byte size. The binary
payload is only ever consumed by the extraction adapter, which is modelled by
`ExtractOutcome`. -/
structure FileInfo where
  name : String
  sizeBytes : Nat
deriving DecidableEq, Repr

/-- One source citation of a `QuestionAnswer`. -/
structure SourceRef where
  documentName : String
  pageNumber : Nat
  excerpt : String
deriving DecidableEq, Repr

/-- The immutable record of one answered query. The TypeScript field
`sources?` is optional but every return site of both iterations sets it, so it
is embedded as a plain list. -/
structure QuestionAnswer where
  question : String
  answer : String
  sources : List SourceRef
deriving DecidableEq, Repr

namespace V1

/-- `PDFDocument` of `src/unnamed/part_002`: no lifecycle flags yet; `content`
and `pages` are absent until processing succeeds. -/
structure PDFDocument where
  id : String
  name : String
  size : String
  file : FileInfo
  content : Option String := none
  pages : Option (List String) := none
deriving DecidableEq, Repr

/-- Provider tag of the part_002 `AIConfig`: `"openai" | "claude"`. -/
inductive Provider where
  | openai
  | claude
deriving DecidableEq, Repr

/-- `AIConfig` of part_002: every field is required. -/
structure AIConfig where
  provider : Provider
  apiKey : String
  model : String
deriving DecidableEq, Repr

/-- One entry of the array built by `findRelevantPassages`. -/
structure Passage where
  documentName : String
  pageNumber : Nat
  content : String
deriving DecidableEq, Repr

/-- The stop-word list inlined in `findRelevantPassages`. -/
def stopWords : List String :=
  ["what", "when", "where", "which", "who", "whom", "whose", "why", "how",
   "does", "did", "about"]

/-- The `questionWords` computation of `findRelevantPassages`: lowercase the
question, split on whitespace, keep tokens of length above 3 that are not stop
words. The source recomputes this list once per page with the same value; it
is hoisted here. -/
def questionWords (question : String) : List String :=
  (Js.splitWs (Js.toLower question)).filter
    (fun word => word.length > 3 && !(stopWords.contains word))

/-- The relevance loop of `findRelevantPassages`: the page text, lowercased,
contains some question word as a substring. The source loop breaks on the
first hit, which is `List.any`. -/
def pageIsRelevant (questionWords : List String) (pageContent : String) : Bool :=
  questionWords.any (fun word => Js.includes (Js.toLower pageContent) word)

/-- The body of the outer `forEach` of `findRelevantPassages`: push a passage
for every page of this document on which `pageIsRelevant` holds; documents
without a `pages` array are skipped. -/
def findRelevantPassagesStep (question : String) (passages : List Passage)
    (doc : PDFDocument) : List Passage :=
  match doc.pages with
  | none => passages
  | some pages =>
    pages.enum.foldl
      (fun passages x =>
        if pageIsRelevant (questionWords question) x.2 then
          passages ++ [⟨doc.name, x.1 + 1, x.2⟩]
        else passages)
      passages

/-- `findRelevantPassages` of part_002, lines 79 to 114: nested `forEach` over
documents and their pages, accumulating the pushed passages in encounter
order. -/
def findRelevantPassages (question : String) (documents : List PDFDocument) :
    List Passage :=
  documents.foldl (findRelevantPassagesStep question) []

/-- Every page of one document as an unfiltered passage, in page order.
Analysis-side definition used to characterise `findRelevantPassages`. -/
def docPassages (doc : PDFDocument) : List Passage :=
  match doc.pages with
  | none => []
  | some pages => pages.enum.map (fun x => ⟨doc.name, x.1 + 1, x.2⟩)

/-- Every page of every document of the set, in original (document, page)
encounter order. -/
def allPassages (documents : List PDFDocument) : List Passage :=
  Js.flatMap documents docPassages

/-- Context string sent to OpenAI by part_002: per-passage header plus the
first 1000 characters of the passage, joined, truncated to 10000 characters.
It only travels on the wire, so no theorem below inspects it. -/
def openAIContext (relevantPassages : List Passage) : String :=
  Js.substrTo
    (Js.join "\n\n"
      (relevantPassages.map (fun passage =>
        "Document: " ++ passage.documentName ++ ", Page: " ++
          toString passage.pageNumber ++ "\n" ++
          Js.substrTo passage.content 1000 ++ "...")))
    10000

/-- `getOpenAIAnswer` of part_002 as a function of the observed network
outcome. On success the code returns `data.choices[0].message.content.trim()`;
a malformed success body throws and is caught, which is the `exn` case. -/
def getOpenAIAnswer (question : String) (relevantPassages : List Passage)
    (apiKey model : String) (outcome : FetchOutcome) : String :=
  match outcome with
  | .ok body => Js.trim body
  | .notOk status errMsg statusText =>
    if status = 401 then
      "Error: Invalid or missing API key. Please check your OpenAI API key."
    else
      "Error connecting to OpenAI: " ++ Js.orElse errMsg statusText
  | .exn =>
    "Sorry, there was an error connecting to OpenAI. Please try again later."

/-- `getClaudeAnswer` of part_002, same shape; on success the code returns
`data.content[0].text` untrimmed. -/
def getClaudeAnswer (question : String) (relevantPassages : List Passage)
    (apiKey model : String) (outcome : FetchOutcome) : String :=
  match outcome with
  | .ok body => body
  | .notOk status errMsg statusText =>
    if status = 401 then
      "Error: Invalid or missing API key. Please check your Claude API key."
    else
      "Error connecting to Claude: " ++ Js.orElse errMsg statusText
  | .exn =>
    "Sorry, there was an error connecting to Claude. Please try again later."

/-- The fixed no-relevant-content answer of part_002. -/
def noRelevantContentMsg : String :=
  "I couldn\x27t find specific information about that in the uploaded documents. Please try rephrasing your question or uploading additional documentation."

/-- `generateAnswerFromDocuments` of part_002: score-free retrieval, a
short-circuit when no passage qualifies, provider dispatch, and citations from
the first three passages. The provider branch on `"openai" | "claude"` is a
total match because the provider type has exactly those two tags. -/
def generateAnswerFromDocuments (question : String)
    (documents : List PDFDocument) (aiConfig : AIConfig)
    (outcome : FetchOutcome) : QuestionAnswer :=
  let relevantPassages := findRelevantPassages question documents
  if relevantPassages.length = 0 then
    ⟨question, noRelevantContentMsg, []⟩
  else
    let aiAnswer :=
      match aiConfig.provider with
      | .openai =>
        getOpenAIAnswer question relevantPassages aiConfig.apiKey aiConfig.model outcome
      | .claude =>
        getClaudeAnswer question relevantPassages aiConfig.apiKey aiConfig.model outcome
    let sources := relevantPassages.map (fun passage =>
      SourceRef.mk passage.documentName passage.pageNumber
        (Js.substrTo passage.content 200 ++ "..."))
    ⟨question, aiAnswer, sources.take 3⟩

/-- `askQuestion` of part_002 delegates to `generateAnswerFromDocuments`. -/
def askQuestion (question : String) (documents : List PDFDocument)
    (aiConfig : AIConfig) (outcome : FetchOutcome) : QuestionAnswer :=
  generateAnswerFromDocuments question documents aiConfig outcome

/-- `processPDFDocument` of part_002: on success it fills `content` (pages
joined by one space) and `pages`; on extraction failure it rethrows
`Failed to process NAME: ERROR`, which the embedding returns as `Except.error`. -/
def processPDFDocument (doc : PDFDocument) (outcome : ExtractOutcome) :
    Except String PDFDocument :=
  match outcome with
  | .ok pages =>
    .ok { doc with content := some (Js.join " " pages), pages := some pages }
  | .exn e =>
    .error ("Failed to process " ++ doc.name ++ ": " ++ e)

end V1

namespace SpecModel

/-- The words of a text for whole-word matching: lowercase the text and split
it on every non-word character. Part of the specification-side scorer below;
the source code has no counterpart. -/
def wordsOf (text : String) : List String :=
  (Js.splitWsAux ((Js.toLower text).data.map
    (fun c => if Js.isWordChar c then c else ' ')) [])

/-- The case-insensitive whole-word occurrence count demanded by the
specification of the Relevance Scorer. -/
def occurrences (keyword : String) (text : String) : Nat :=
  ((wordsOf text).filter (fun w => w == keyword)).length

/-- The numerator of the specified score of a page: (sum of keyword occurrence
counts) times (number of distinct keywords matched). The specified score
itself is this numerator divided by the square root of the page length. -/
def scoreNum (keywords : List String) (text : String) : Nat :=
  ((keywords.map (fun k => occurrences k text)).sum) *
    ((keywords.dedup).filter (fun k => occurrences k text > 0)).length

/-- Strict comparison of two specified scores `n1 / sqrt L1 > n2 / sqrt L2`
stated over the naturals: for positive lengths the inequality is equivalent to
`n1 ^ 2 * L2 > n2 ^ 2 * L1`, which avoids real square roots. -/
def scoreGT (n1 L1 n2 L2 : Nat) : Prop :=
  n2 ^ 2 * L1 < n1 ^ 2 * L2

instance scoreGT.decidable (n1 L1 n2 L2 : Nat) : Decidable (scoreGT n1 L1 n2 L2) :=
  inferInstanceAs (Decidable (n2 ^ 2 * L1 < n1 ^ 2 * L2))

/-- The ordering demanded by the specification sentence "Result is sorted
descending by score": no later passage outranks an earlier one. -/
def sortedDescBySpecScore (keywords : List String) (ps : List V1.Passage) : Prop :=
  List.Pairwise
    (fun a b =>
      ¬ scoreGT (scoreNum keywords b.content) b.content.length
        (scoreNum keywords a.content) a.content.length)
    ps

end SpecModel

namespace V2

/-- `PDFDocument` of `src/src/utils/PDFServices.ts`: lifecycle flags and an
optional error message in addition to the part_002 fields. -/
structure PDFDocument where
  id : String
  name : String
  size : String
  file : FileInfo
  content : Option String := none
  pages : Option (List String) := none
  isProcessing : Bool
  isProcessed : Bool
  error : Option String := none
deriving DecidableEq, Repr

/-- Provider tag of the current `AIConfig`: `"openai" | "claude" | "transformers"`. -/
inductive Provider where
  | openai
  | claude
  | transformers
deriving DecidableEq, Repr

/-- `AIConfig` of PDFServices.ts: key and model are optional. -/
structure AIConfig where
  provider : Provider
  apiKey : Option String := none
  model : Option String := none
deriving DecidableEq, Repr

/-- JavaScript truthiness of `aiConfig.apiKey`: present and nonempty. -/
def hasKey : Option String → Bool
  | none => false
  | some s => !(s == "")

/-- `formatFileSize`. The JavaScript divisions `bytes / 1024` and
`bytes / 1048576` are exact in IEEE doubles for realistic sizes, and
`toFixed(1)` picks the larger candidate on a tie, so the rounding is exactly
round half up on one decimal digit, embedded here over the naturals. -/
def oneDecimal (bytes divisor : Nat) : String :=
  toString ((bytes * 10 + divisor / 2) / divisor / 10) ++ "." ++
    toString ((bytes * 10 + divisor / 2) / divisor % 10)

/-- `formatFileSize` of PDFServices.ts. -/
def formatFileSize (bytes : Nat) : String :=
  if bytes < 1024 then toString bytes ++ " B"
  else if bytes < 1048576 then oneDecimal bytes 1024 ++ " KB"
  else oneDecimal bytes 1048576 ++ " MB"

/-- The stop-word list inlined in `getTransformersAnswer`. -/
def stopWords : List String :=
  ["what", "when", "where", "which", "who", "how", "does", "is", "are",
   "was", "were", "will", "would", "could", "should", "can", "this", "that",
   "these", "those", "about"]

/-- The keyword computation of `getTransformersAnswer`, lines 362 to 372:
lowercase, delete punctuation, split on whitespace, keep tokens of length
above 3 that are not stop words. -/
def extractKeywords (question : String) : List String :=
  (Js.splitWs (Js.stripPunct (Js.toLower question))).filter
    (fun word => word.length > 3 && !(stopWords.contains word))

/-- The section list both remote-provider functions build for their prompt:
header, up to 4 full pages (2000 characters each), then samples of the
remaining pages. It only travels on the wire; no claim inspects it. -/
def documentContexts (documents : List PDFDocument) : List String :=
  Js.flatMap documents (fun doc =>
    match doc.pages with
    | none => []
    | some pages =>
      if pages.length = 0 then []
      else
        ("Document: \"" ++ doc.name ++ "\" (" ++ toString pages.length ++ " pages)")
        :: ((pages.take 4).enum.filterMap (fun x =>
            if Js.trim x.2 == "" then none
            else some ("[Page " ++ toString (x.1 + 1) ++ "]:\n" ++ Js.substrTo x.2 2000)))
        ++ (if pages.length > 4 then
              ("[Additional content]: This document has " ++
                 toString (pages.length - 4) ++ " more pages not shown in full.")
              :: ((pages.enum.drop 4).filterMap (fun x =>
                  if Js.trim x.2 == "" then none
                  else some ("[Page " ++ toString (x.1 + 1) ++ " sample]:\n" ++
                    Js.substrTo x.2 200 ++ "...")))
            else []))

/-- The message all three synthesis functions return when some document is not
yet processed. -/
def stillBeingProcessedMsg (unprocessedDocs : List PDFDocument) : String :=
  "Some documents are still being processed: " ++
    Js.join ", " (unprocessedDocs.map (fun d => d.name)) ++
    ". Please wait for processing to complete."

/-- `getOpenAIAnswer` of PDFServices.ts, lines 87 to 199, as a function of the
observed network outcome. On success the code returns
`data.choices[0].message.content.trim()`; a thrown transport failure, a JSON
parse failure or an unexpected response shape is the `exn` case, recovered by
the outer catch. -/
def getOpenAIAnswer (question : String) (documents : List PDFDocument)
    (apiKey : String) (model : Option String) (outcome : FetchOutcome) : String :=
  if (documents.filter (fun d => !d.isProcessed)).length > 0 then
    stillBeingProcessedMsg (documents.filter (fun d => !d.isProcessed))
  else
    match outcome with
    | .ok body => Js.trim body
    | .notOk status errMsg statusText =>
      if status = 401 then
        "Error: Invalid or missing API key. Please check your OpenAI API key."
      else
        "Error connecting to OpenAI: " ++ Js.orElse errMsg statusText
    | .exn =>
      "Sorry, there was an error connecting to OpenAI. Please try again later."

/-- `getClaudeAnswer` of PDFServices.ts, lines 202 to 315, same shape; on
success the code returns `data.content[0].text` untrimmed. -/
def getClaudeAnswer (question : String) (documents : List PDFDocument)
    (apiKey : String) (model : Option String) (outcome : FetchOutcome) : String :=
  if (documents.filter (fun d => !d.isProcessed)).length > 0 then
    stillBeingProcessedMsg (documents.filter (fun d => !d.isProcessed))
  else
    match outcome with
    | .ok body => body
    | .notOk status errMsg statusText =>
      if status = 401 then
        "Error: Invalid or missing API key. Please check your Claude API key."
      else
        "Error connecting to Claude: " ++ Js.orElse errMsg statusText
    | .exn =>
      "Sorry, there was an error connecting to Claude. Please try again later."

/-- One `context +=` contribution of a page inside `getTransformersAnswer`. -/
def transformersPageChunk (i : Nat) (page : String) : String :=
  if Js.trim page == "" then ""
  else "[Page " ++ toString (i + 1) ++ "]:\n" ++ Js.substrTo page 1000 ++ "\n\n"

/-- The simplified context `getTransformersAnswer` accumulates: per document a
header plus its first 3 pages, 1000 characters each. -/
def transformersContext (documents : List PDFDocument) : String :=
  documents.foldl
    (fun context doc =>
      match doc.pages with
      | none => context
      | some pages =>
        if pages.length = 0 then context
        else
          (pages.take 3).enum.foldl
            (fun context x => context ++ transformersPageChunk x.1 x.2)
            (context ++ "Document: " ++ doc.name ++ "\n\n"))
    ""

/-- Header of the extractive local answer. -/
def basedOnDocsHeader : String :=
  "Based on the documents, I found the following information:\n\n"

/-- Disclaimer appended to the extractive local answer. -/
def transformersDisclaimer : String :=
  "\n\nNote: This answer was generated using simple text matching since no AI API key was provided. For more accurate answers, please configure an OpenAI or Claude API key."

/-- The no-match answer of the local strategy. -/
def transformersNoMatchMsg : String :=
  "I couldn\x27t find specific information about that in the uploaded documents. The basic search couldn\x27t match your question with the document content. For better results, try using OpenAI or Claude with an API key."

/-- `getTransformersAnswer` of PDFServices.ts, lines 318 to 408: pure
keyword-to-sentence matching over the accumulated context. The sentence list
is the context split after sentence-ending punctuation; the first 5 matching
sentences are joined. No network outcome parameter: the function performs no
call. -/
def getTransformersAnswer (question : String) (documents : List PDFDocument) : String :=
  if (documents.filter (fun d => !d.isProcessed)).length > 0 then
    stillBeingProcessedMsg (documents.filter (fun d => !d.isProcessed))
  else
    let relevantSentences :=
      (Js.splitSentences (transformersContext documents)).filter
        (fun sentence => (extractKeywords question).any
          (fun keyword => Js.includes (Js.toLower sentence) keyword))
    if relevantSentences.length > 0 then
      basedOnDocsHeader ++ Js.join "\n\n" (relevantSentences.take 5) ++
        transformersDisclaimer
    else
      transformersNoMatchMsg

/-- The validation message for an empty document set. -/
def uploadFirstMsg : String :=
  "Please upload PDF documents before asking questions."

/-- The short-circuit answer naming the still-processing documents. -/
def processingMsg (documents : List PDFDocument) : String :=
  "Some documents (" ++
    Js.join ", " ((documents.filter (fun d => d.isProcessing)).map (fun d => d.name)) ++
    ") are still being processed. Please wait for processing to complete."

/-- The short-circuit answer naming the not-fully-processed documents. -/
def notFullyProcessedMsg (documents : List PDFDocument) : String :=
  "Some documents (" ++
    Js.join ", " ((documents.filter (fun d => !d.isProcessed)).map (fun d => d.name)) ++
    ") haven\x27t been fully processed yet. Please try again in a moment."

/-- The provider dispatch of `generateAnswerFromDocuments`: a remote provider
is used only when selected and its key is truthy, otherwise the local
strategy. -/
def dispatchAnswer (question : String) (documents : List PDFDocument)
    (aiConfig : AIConfig) (outcome : FetchOutcome) : String :=
  if aiConfig.provider == .openai && hasKey aiConfig.apiKey then
    getOpenAIAnswer question documents (aiConfig.apiKey.getD "") aiConfig.model outcome
  else if aiConfig.provider == .claude && hasKey aiConfig.apiKey then
    getClaudeAnswer question documents (aiConfig.apiKey.getD "") aiConfig.model outcome
  else
    getTransformersAnswer question documents

/-- `aiConfig` selects the local strategy: neither remote branch of the
dispatch fires. -/
def localOnly (aiConfig : AIConfig) : Bool :=
  !(aiConfig.provider == .openai && hasKey aiConfig.apiKey) &&
    !(aiConfig.provider == .claude && hasKey aiConfig.apiKey)

/-- The source references built at the end of `generateAnswerFromDocuments`,
lines 469 to 480: the first 3 documents, each contributing one citation of its
first page when it has extracted pages. -/
def sourcesFromDocuments (documents : List PDFDocument) : List SourceRef :=
  Js.flatMap (documents.take 3) (fun doc =>
    match doc.pages with
    | none => []
    | some [] => []
    | some (firstPage :: _) =>
      [SourceRef.mk doc.name 1 (Js.substrTo firstPage 200 ++ "...")])

/-- `generateAnswerFromDocuments` of PDFServices.ts, lines 411 to 487. -/
def generateAnswerFromDocuments (question : String)
    (documents : List PDFDocument) (aiConfig : AIConfig)
    (outcome : FetchOutcome) : QuestionAnswer :=
  if documents.length = 0 then
    ⟨question, uploadFirstMsg, []⟩
  else if (documents.filter (fun d => d.isProcessing)).length > 0 then
    ⟨question, processingMsg documents, []⟩
  else if (documents.filter (fun d => !d.isProcessed)).length > 0 then
    ⟨question, notFullyProcessedMsg documents, []⟩
  else
    ⟨question, dispatchAnswer question documents aiConfig outcome,
      sourcesFromDocuments documents⟩

/-- `askQuestion` of PDFServices.ts delegates to
`generateAnswerFromDocuments`. -/
def askQuestion (question : String) (documents : List PDFDocument)
    (aiConfig : AIConfig) (outcome : FetchOutcome) : QuestionAnswer :=
  generateAnswerFromDocuments question documents aiConfig outcome

/-- `createPDFDocument` of PDFServices.ts, lines 490 to 499. The fresh
`nanoid()` value is passed in as `freshId`. -/
def createPDFDocument (freshId : String) (file : FileInfo) : PDFDocument :=
  { id := freshId, name := file.name, size := formatFileSize file.sizeBytes,
    file := file, content := none, pages := none,
    isProcessing := true, isProcessed := false, error := none }

/-- The failure result of `processPDFDocument`: the original document with the
lifecycle flags cleared and the error message set; `errStr` is the stringified
thrown value. -/
def failedDoc (doc : PDFDocument) (errStr : String) : PDFDocument :=
  { doc with
    isProcessing := false,
    isProcessed := false,
    error := some ("Failed to process " ++ doc.name ++ ": " ++ errStr) }

/-- `processPDFDocument` of PDFServices.ts, lines 501 to 553: every failure is
caught and resolved into a failed-state document; the two internal guards
throw `Error` objects whose stringification carries the `Error: ` head. -/
def processPDFDocument (doc : PDFDocument) (outcome : ExtractOutcome) : PDFDocument :=
  match outcome with
  | .exn e => failedDoc doc e
  | .ok pages =>
    if pages.length = 0 then
      failedDoc doc "Error: Failed to extract pages from PDF"
    else if Js.trim (Js.join " " pages) == "" then
      failedDoc doc "Error: Extracted content is empty"
    else
      { doc with
        content := some (Js.join " " pages),
        pages := some pages,
        isProcessing := false,
        isProcessed := true,
        error := none }

/-- The batch step of `Index.tsx`: `Promise.all(newDocuments.map(doc =>
processPDFDocument(doc)))` with one extraction outcome per document. -/
def processBatch (documents : List PDFDocument)
    (outcomes : List ExtractOutcome) : List PDFDocument :=
  List.zipWith processPDFDocument documents outcomes

end V2

/- Helper lemmas shared by the claim theorems below. -/

theorem strAppend_assoc_chain (a b c d e : String) :
    a ++ ((b ++ c) ++ d) ++ e = (a ++ b) ++ c ++ (d ++ e) := by
  simp [String.append_assoc]

/-- Accumulating a conditional push over a list is appending the filtered,
mapped list. -/
theorem foldl_push_if {γ δ : Type} (r : γ → Bool) (mk : γ → δ) :
    ∀ (l : List γ) (acc : List δ),
      l.foldl (fun ps x => if r x then ps ++ [mk x] else ps) acc
        = acc ++ (l.filter r).map mk := by
  intro l
  induction l with
  | nil => intro acc; simp
  | cons x t ih =>
    intro acc
    rw [List.foldl_cons]
    cases hr : r x <;>
      simp [hr, ih, List.filter_cons, List.append_assoc]

/-- `Js.flatMap` on a cons cell. -/
theorem flatMap_cons {α δ : Type} (f : α → List δ) (a : α) (t : List α) :
    Js.flatMap (a :: t) f = f a ++ Js.flatMap t f := by
  simp [Js.flatMap]

/-- Filtering distributes over `Js.flatMap`. -/
theorem filter_flatMap {α δ : Type} (p : δ → Bool) (f : α → List δ) :
    ∀ l : List α,
      (Js.flatMap l f).filter p = Js.flatMap l (fun a => (f a).filter p) := by
  intro l
  induction l with
  | nil => rfl
  | cons a t ih => rw [flatMap_cons, flatMap_cons, List.filter_append, ih]

/-- A `Js.flatMap` whose branches have at most one element is no longer than
its input. -/
theorem flatMap_length_le {α δ : Type} (f : α → List δ)
    (h : ∀ a, (f a).length ≤ 1) :
    ∀ l : List α, (Js.flatMap l f).length ≤ l.length := by
  intro l
  induction l with
  | nil => simp [Js.flatMap]
  | cons a t ih =>
    have ha := h a
    rw [flatMap_cons, List.length_append, List.length_cons]
    omega

/-- Any member of a joined list appears inside the joined string. -/
theorem join_decomp (sep x : String) :
    ∀ l : List String, x ∈ l → ∃ s t, Js.join sep l = s ++ x ++ t := by
  intro l
  induction l with
  | nil => intro h; cases h
  | cons y ys ih =>
    intro hx
    cases ys with
    | nil =>
      have hxy : x = y := by
        rcases List.mem_cons.mp hx with h | h
        · exact h
        · cases h
      exact ⟨"", "", by
        simp [Js.join, hxy, String.empty_append, String.append_empty]⟩
    | cons z zs =>
      rcases List.mem_cons.mp hx with rfl | hmem
      · refine ⟨"", sep ++ Js.join sep (z :: zs), ?_⟩
        show x ++ sep ++ Js.join sep (z :: zs)
          = "" ++ x ++ (sep ++ Js.join sep (z :: zs))
        simp [String.append_assoc, String.empty_append]
      · obtain ⟨s, t, hst⟩ := ih hmem
        refine ⟨y ++ sep ++ s, t, ?_⟩
        show y ++ sep ++ Js.join sep (z :: zs) = y ++ sep ++ s ++ x ++ t
        rw [hst]
        simp [String.append_assoc]

/-- The outer fold step of the score-free retrieval appends exactly the
qualifying passages of one document. -/
theorem findRelevantPassagesStep_eq (question : String)
    (acc : List V1.Passage) (doc : V1.PDFDocument) :
    V1.findRelevantPassagesStep question acc doc =
      acc ++ (V1.docPassages doc).filter
        (fun p => V1.pageIsRelevant (V1.questionWords question) p.content) := by
  unfold V1.findRelevantPassagesStep V1.docPassages
  cases doc.pages with
  | none => simp
  | some pages =>
    dsimp only
    rw [foldl_push_if, List.filter_map]
    rfl

/-- Characterisation of `findRelevantPassages`: the encounter-order page list
filtered by keyword relevance, nothing more. In particular no score is
computed and no reordering happens. -/
theorem findRelevantPassages_eq_filter (question : String)
    (documents : List V1.PDFDocument) :
    V1.findRelevantPassages question documents =
      (V1.allPassages documents).filter
        (fun p => V1.pageIsRelevant (V1.questionWords question) p.content) := by
  unfold V1.findRelevantPassages
  suffices h : ∀ (l : List V1.PDFDocument) (acc : List V1.Passage),
      l.foldl (V1.findRelevantPassagesStep question) acc
        = acc ++ (V1.allPassages l).filter
            (fun p => V1.pageIsRelevant (V1.questionWords question) p.content) by
    simpa using h documents []
  intro l
  induction l with
  | nil => intro acc; simp [V1.allPassages, Js.flatMap]
  | cons d t ih =>
    intro acc
    rw [List.foldl_cons, findRelevantPassagesStep_eq, ih]
    rw [show V1.allPassages (d :: t) = V1.docPassages d ++ V1.allPassages t from
      flatMap_cons _ _ _]
    rw [List.filter_append, List.append_assoc]

/-- An empty keyword list qualifies no page. -/
theorem no_keywords_no_passages (question : String)
    (documents : List V1.PDFDocument)
    (h : V1.questionWords question = []) :
    V1.findRelevantPassages question documents = [] := by
  rw [findRelevantPassages_eq_filter]
  rw [List.filter_eq_nil_iff]
  intro p _
  simp [V1.pageIsRelevant, h]

/-- The still-processing validation branch of the current orchestrator. -/
theorem processing_short_circuit (question : String)
    (documents : List V2.PDFDocument) (aiConfig : V2.AIConfig)
    (outcome : FetchOutcome)
    (h : (documents.filter (fun d => d.isProcessing)).length > 0) :
    V2.generateAnswerFromDocuments question documents aiConfig outcome =
      ⟨question, V2.processingMsg documents, []⟩ := by
  have hne : ¬ documents.length = 0 := by
    intro h0
    rw [List.length_eq_zero] at h0
    subst h0
    simp at h
  unfold V2.generateAnswerFromDocuments
  rw [if_neg hne, if_pos h]

/-- A local configuration makes the dispatch land on the local strategy. -/
theorem dispatch_local (question : String) (documents : List V2.PDFDocument)
    (aiConfig : V2.AIConfig) (outcome : FetchOutcome)
    (h : V2.localOnly aiConfig = true) :
    V2.dispatchAnswer question documents aiConfig outcome =
      V2.getTransformersAnswer question documents := by
  simp only [V2.localOnly, Bool.and_eq_true, Bool.not_eq_true'] at h
  obtain ⟨h1, h2⟩ := h
  simp [V2.dispatchAnswer, h1, h2]

/- Claim theorems. -/

/-- Claim C1, counterexample: keywords are "compare", "revenue", "profit";
page 1 contains one keyword once, the equal-length page 2 contains every
keyword exactly once. The code returns the two pages in encounter order,
although the score demanded by the specification is strictly greater for page
2 (the numerators are 9 versus 1 at equal length), so the output is not
sorted descending by that score; no score is computed at all. -/
theorem c1_counterexample :
    V1.findRelevantPassages "compare revenue profit"
        [{ id := "1", name := "d.pdf", size := "0.1 KB", file := ⟨"d.pdf", 100⟩,
           pages := some ["profit xxxxxxx yyyyyyy", "compare revenue profit"] }] =
      [⟨"d.pdf", 1, "profit xxxxxxx yyyyyyy"⟩,
       ⟨"d.pdf", 2, "compare revenue profit"⟩] ∧
    ("profit xxxxxxx yyyyyyy" : String).length =
      ("compare revenue profit" : String).length ∧
    SpecModel.scoreGT
      (SpecModel.scoreNum (V1.questionWords "compare revenue profit")
        "compare revenue profit")
      ("compare revenue profit" : String).length
      (SpecModel.scoreNum (V1.questionWords "compare revenue profit")
        "profit xxxxxxx yyyyyyy")
      ("profit xxxxxxx yyyyyyy" : String).length ∧
    ¬ SpecModel.sortedDescBySpecScore (V1.questionWords "compare revenue profit")
        (V1.findRelevantPassages "compare revenue profit"
          [{ id := "1", name := "d.pdf", size := "0.1 KB", file := ⟨"d.pdf", 100⟩,
             pages := some ["profit xxxxxxx yyyyyyy", "compare revenue profit"] }]) := by
  refine ⟨by decide, by decide, by decide, ?_⟩
  intro hsorted
  have e : V1.findRelevantPassages "compare revenue profit"
      [{ id := "1", name := "d.pdf", size := "0.1 KB", file := ⟨"d.pdf", 100⟩,
         pages := some ["profit xxxxxxx yyyyyyy", "compare revenue profit"] }] =
      [⟨"d.pdf", 1, "profit xxxxxxx yyyyyyy"⟩,
       ⟨"d.pdf", 2, "compare revenue profit"⟩] := by decide
  rw [e] at hsorted
  unfold SpecModel.sortedDescBySpecScore at hsorted
  have h := (List.pairwise_cons.mp hsorted).1
    ⟨"d.pdf", 2, "compare revenue profit"⟩ (by simp)
  exact h (by decide)

/-- Claim C1 (amended): the Relevance Scorer `findRelevantPassages` assigns no
scores and performs no sorting: for every question and document set it returns
exactly those pages whose lowercased text contains at least one question
keyword as a substring, in original (document, page) encounter order; in
particular two equal-length passages of which one matches every keyword and
the other a single keyword are returned as equally qualified, in encounter
order. -/
theorem c1_claim (question : String) (documents : List V1.PDFDocument) :
    V1.findRelevantPassages question documents =
      (V1.allPassages documents).filter
        (fun p => V1.pageIsRelevant (V1.questionWords question) p.content) :=
  findRelevantPassages_eq_filter question documents

/-- Claim C2, counterexample: the token "sun" of length 3 is not a stop word
and has length above 2, so the claim keeps it, but the code filter demands
length above 3 and drops it. -/
theorem c2_counterexample :
    V2.extractKeywords "the sun rose high" = ["rose", "high"] ∧
    "sun" ∈ Js.splitWs (Js.stripPunct (Js.toLower "the sun rose high")) ∧
    ¬ (("sun" : String).length ≤ 2) ∧
    "sun" ∉ V2.stopWords := by
  refine ⟨by decide, by decide, by decide, by decide⟩

/-- Claim C2 (amended): question tokenization lowercases the question, strips
punctuation, splits on whitespace, and drops exactly those tokens whose
length is at most 3 or that belong to the fixed stop-word set; every other
token is kept as a keyword. -/
theorem c2_claim (question : String) (word : String) :
    word ∈ V2.extractKeywords question ↔
      (word ∈ Js.splitWs (Js.stripPunct (Js.toLower question)) ∧
        ¬ (word.length ≤ 3) ∧ word ∉ V2.stopWords) := by
  unfold V2.extractKeywords
  rw [List.mem_filter]
  simp [not_le]

/-- Claim C3: whenever retrieval yields zero passages, and in particular for
every question whose keyword list is empty, the part_002 orchestrator returns
the fixed no-relevant-content answer with an empty sources list; the network
outcome is universally quantified and never consulted, so no provider call is
observed, and the embedding is a total function, so no exception escapes. -/
theorem c3_claim (question : String) (documents : List V1.PDFDocument)
    (aiConfig : V1.AIConfig) (outcome : FetchOutcome)
    (h : V1.questionWords question = [] ∨
      V1.findRelevantPassages question documents = []) :
    V1.findRelevantPassages question documents = [] ∧
    V1.generateAnswerFromDocuments question documents aiConfig outcome =
      ⟨question, V1.noRelevantContentMsg, []⟩ := by
  have hp : V1.findRelevantPassages question documents = [] := by
    rcases h with h | h
    · exact no_keywords_no_passages question documents h
    · exact h
  refine ⟨hp, ?_⟩
  simp [V1.generateAnswerFromDocuments, hp]

/-- Witness for C3 at a concrete input: every token of the question is a stop
word or too short, so the keyword list is empty and the orchestrator
short-circuits. -/
theorem c3_witness :
    V1.questionWords "What is it" = [] ∧
    V1.generateAnswerFromDocuments "What is it"
        [{ id := "1", name := "a.pdf", size := "0.1 KB", file := ⟨"a.pdf", 10⟩,
           pages := some ["revenue grew 20 percent in Q3"] }]
        ⟨.openai, "sk-key", "gpt-4o-mini"⟩ (.ok "irrelevant") =
      ⟨"What is it", V1.noRelevantContentMsg, []⟩ :=
  ⟨by decide,
    (c3_claim "What is it"
      [{ id := "1", name := "a.pdf", size := "0.1 KB", file := ⟨"a.pdf", 10⟩,
         pages := some ["revenue grew 20 percent in Q3"] }]
      ⟨.openai, "sk-key", "gpt-4o-mini"⟩ (.ok "irrelevant")
      (Or.inl (by decide))).2⟩

/-- Claim C4: for every document set containing a document in the processing
state, the current orchestrator returns the short-circuit message built from
exactly the still-processing documents with an empty sources list; the
network outcome is universally quantified and the result does not depend on
it, so no scorer or provider result is consulted. -/
theorem c4_claim (question : String) (documents : List V2.PDFDocument)
    (aiConfig : V2.AIConfig) (outcome : FetchOutcome)
    (h : (documents.filter (fun d => d.isProcessing)).length > 0) :
    V2.generateAnswerFromDocuments question documents aiConfig outcome =
      ⟨question, V2.processingMsg documents, []⟩ :=
  processing_short_circuit question documents aiConfig outcome h

/-- Witness for C4 at a concrete input: one ready and one processing document;
the message names exactly the processing one. -/
theorem c4_witness :
    (([{ id := "1", name := "a.pdf", size := "16 B", file := ⟨"a.pdf", 16⟩,
         pages := some ["hello world data"],
         isProcessing := false, isProcessed := true },
       { id := "2", name := "b.pdf", size := "10 B", file := ⟨"b.pdf", 10⟩,
         isProcessing := true, isProcessed := false }] :
        List V2.PDFDocument).filter (fun d => d.isProcessing)).length > 0 ∧
    V2.generateAnswerFromDocuments "q"
        [{ id := "1", name := "a.pdf", size := "16 B", file := ⟨"a.pdf", 16⟩,
           pages := some ["hello world data"],
           isProcessing := false, isProcessed := true },
         { id := "2", name := "b.pdf", size := "10 B", file := ⟨"b.pdf", 10⟩,
           isProcessing := true, isProcessed := false }]
        ⟨.transformers, none, none⟩ .exn =
      ⟨"q", "Some documents (b.pdf) are still being processed. Please wait for processing to complete.", []⟩ :=
  ⟨by decide,
    (c4_claim "q"
      [{ id := "1", name := "a.pdf", size := "16 B", file := ⟨"a.pdf", 16⟩,
         pages := some ["hello world data"],
         isProcessing := false, isProcessed := true },
       { id := "2", name := "b.pdf", size := "10 B", file := ⟨"b.pdf", 10⟩,
         isProcessing := true, isProcessed := false }]
      ⟨.transformers, none, none⟩ .exn (by decide)).trans (by decide)⟩

/-- Claim C5: for both remote providers of the current module, once every
document is processed: a 401 response yields the fixed invalid-key string; any
other non-success response yields the string embedding the provider error
message (or the status text when the message is missing); a transport or
parse exception yields the generic try-again-later string. The embedding is a
total function into `String`, so every failure is recovered into an answer
and none escapes as an exception. -/
theorem c5_claim (question : String) (documents : List V2.PDFDocument)
    (apiKey : String) (model : Option String) (errMsg : Option String)
    (statusText : String) (status : Nat) (m : String)
    (hproc : ∀ d ∈ documents, d.isProcessed = true)
    (hs : status ≠ 401) (hm : m ≠ "") :
    V2.getOpenAIAnswer question documents apiKey model (.notOk 401 errMsg statusText) =
      "Error: Invalid or missing API key. Please check your OpenAI API key." ∧
    V2.getOpenAIAnswer question documents apiKey model (.notOk status (some m) statusText) =
      "Error connecting to OpenAI: " ++ m ∧
    V2.getOpenAIAnswer question documents apiKey model .exn =
      "Sorry, there was an error connecting to OpenAI. Please try again later." ∧
    V2.getClaudeAnswer question documents apiKey model (.notOk 401 errMsg statusText) =
      "Error: Invalid or missing API key. Please check your Claude API key." ∧
    V2.getClaudeAnswer question documents apiKey model (.notOk status (some m) statusText) =
      "Error connecting to Claude: " ++ m ∧
    V2.getClaudeAnswer question documents apiKey model .exn =
      "Sorry, there was an error connecting to Claude. Please try again later." := by
  have hf : documents.filter (fun d => !d.isProcessed) = [] := by
    rw [List.filter_eq_nil_iff]
    intro d hd
    simp [hproc d hd]
  have hlen : ¬ (documents.filter (fun d => !d.isProcessed)).length > 0 := by
    rw [hf]
    simp
  have horelse : Js.orElse (some m) statusText = m := by
    simp [Js.orElse, hm]
  refine ⟨?_, ?_, ?_, ?_, ?_, ?_⟩ <;>
    simp [V2.getOpenAIAnswer, V2.getClaudeAnswer, hlen, hs, horelse]

/-- Witness for C5 at concrete inputs: an empty (hence fully processed)
document set, a 500 response carrying a provider message, and a thrown
exception. -/
theorem c5_witness :
    ((500 : Nat) ≠ 401) ∧ (("upstream failure" : String) ≠ "") ∧
    V2.getOpenAIAnswer "q" [] "sk" none
        (.notOk 500 (some "upstream failure") "Server Error") =
      "Error connecting to OpenAI: upstream failure" ∧
    V2.getClaudeAnswer "q" [] "sk" none .exn =
      "Sorry, there was an error connecting to Claude. Please try again later." :=
  ⟨by decide, by decide,
    (c5_claim "q" [] "sk" none (some "upstream failure") "Server Error"
      500 "upstream failure" (by simp) (by decide) (by decide)).2.1,
    (c5_claim "q" [] "sk" none (some "upstream failure") "Server Error"
      500 "upstream failure" (by simp) (by decide) (by decide)).2.2.2.2.2⟩

/-- Claim C6: on every branch of both iterations, the returned sources list
has length at most 3. -/
theorem c6_claim (question : String)
    (documents1 : List V1.PDFDocument) (aiConfig1 : V1.AIConfig)
    (outcome1 : FetchOutcome)
    (documents2 : List V2.PDFDocument) (aiConfig2 : V2.AIConfig)
    (outcome2 : FetchOutcome) :
    (V1.generateAnswerFromDocuments question documents1 aiConfig1 outcome1).sources.length ≤ 3 ∧
    (V2.generateAnswerFromDocuments question documents2 aiConfig2 outcome2).sources.length ≤ 3 := by
  constructor
  · by_cases h : (V1.findRelevantPassages question documents1).length = 0
    · simp [V1.generateAnswerFromDocuments, h]
    · simp only [V1.generateAnswerFromDocuments, if_neg h]
      exact List.length_take_le _ _
  · have hb : (V2.sourcesFromDocuments documents2).length ≤ 3 := by
      unfold V2.sourcesFromDocuments
      refine le_trans (flatMap_length_le _ ?_ _) (List.length_take_le _ _)
      intro doc
      rcases doc with ⟨id, name, size, file, content, pages, p1, p2, err⟩
      rcases pages with _ | ⟨_ | ⟨p, ps⟩⟩ <;> simp
    by_cases h1 : documents2.length = 0
    · simp [V2.generateAnswerFromDocuments, h1]
    · by_cases h2 : (documents2.filter (fun d => d.isProcessing)).length > 0
      · simp [V2.generateAnswerFromDocuments, h1, h2]
      · by_cases h3 : (documents2.filter (fun d => !d.isProcessed)).length > 0
        · simp [V2.generateAnswerFromDocuments, h1, h2, h3]
        · simpa [V2.generateAnswerFromDocuments, h1, h2, h3] using hb

/-- Claim C7, counterexample: the only page matching a question keyword is
page 2, yet the returned citation cites page 1 with the excerpt of page 1:
citations of the current module are built from the first documents, not from
ranked passages. -/
theorem c7_counterexample :
    (V2.generateAnswerFromDocuments "What was the revenue"
        [{ id := "1", name := "d.pdf", size := "10 B", file := ⟨"d.pdf", 10⟩,
           pages := some ["alpha beta.", "The revenue grew."],
           isProcessing := false, isProcessed := true }]
        ⟨.transformers, none, none⟩ .exn).sources =
      [⟨"d.pdf", 1, "alpha beta...."⟩] ∧
    ((V2.extractKeywords "What was the revenue").any
        (fun k => Js.includes (Js.toLower "alpha beta.") k)) = false ∧
    ((V2.extractKeywords "What was the revenue").any
        (fun k => Js.includes (Js.toLower "The revenue grew.") k)) = true := by
  refine ⟨by decide, by decide, by decide⟩

/-- Claim C7 (amended): in the part_002 iteration the citations are the first
3 passages of the retrieval list in encounter order, each carrying the
passage document name, its 1-based page number, and the first 200 characters
of its page text plus an ellipsis; in the current PDFServices.ts the
citations are instead derived from the first 3 documents, each citing page 1
with the first 200 characters of its first page plus an ellipsis. -/
theorem c7_claim (question : String)
    (documents1 : List V1.PDFDocument) (aiConfig1 : V1.AIConfig)
    (outcome1 : FetchOutcome)
    (documents2 : List V2.PDFDocument) (aiConfig2 : V2.AIConfig)
    (outcome2 : FetchOutcome)
    (hne : documents2.length ≠ 0)
    (hproc : ∀ d ∈ documents2, d.isProcessing = false)
    (hdone : ∀ d ∈ documents2, d.isProcessed = true) :
    (V1.generateAnswerFromDocuments question documents1 aiConfig1 outcome1).sources =
      ((V1.findRelevantPassages question documents1).map (fun passage =>
        SourceRef.mk passage.documentName passage.pageNumber
          (Js.substrTo passage.content 200 ++ "..."))).take 3 ∧
    (V2.generateAnswerFromDocuments question documents2 aiConfig2 outcome2).sources =
      V2.sourcesFromDocuments documents2 := by
  constructor
  · by_cases h : (V1.findRelevantPassages question documents1).length = 0
    · have h0 : V1.findRelevantPassages question documents1 = [] :=
        List.length_eq_zero.mp h
      simp [V1.generateAnswerFromDocuments, h0]
    · simp [V1.generateAnswerFromDocuments, h]
  · have h2 : ¬ (documents2.filter (fun d => d.isProcessing)).length > 0 := by
      have he : documents2.filter (fun d => d.isProcessing) = [] := by
        rw [List.filter_eq_nil_iff]
        intro d hd
        simp [hproc d hd]
      rw [he]
      simp
    have h3 : ¬ (documents2.filter (fun d => !d.isProcessed)).length > 0 := by
      have he : documents2.filter (fun d => !d.isProcessed) = [] := by
        rw [List.filter_eq_nil_iff]
        intro d hd
        simp [hdone d hd]
      rw [he]
      simp
    simp [V2.generateAnswerFromDocuments, hne, h2, h3]

/-- Witness for C7 at concrete inputs: an empty part_002 document set and one
ready current-module document. -/
theorem c7_witness :
    (V1.generateAnswerFromDocuments "revenue growth" [] ⟨.openai, "k", "m"⟩ .exn).sources =
      ((V1.findRelevantPassages "revenue growth" []).map (fun passage =>
        SourceRef.mk passage.documentName passage.pageNumber
          (Js.substrTo passage.content 200 ++ "..."))).take 3 ∧
    (V2.generateAnswerFromDocuments "revenue growth"
        [{ id := "1", name := "d.pdf", size := "11 B", file := ⟨"d.pdf", 11⟩,
           pages := some ["alpha beta."],
           isProcessing := false, isProcessed := true }]
        ⟨.transformers, none, none⟩ .exn).sources =
      V2.sourcesFromDocuments
        [{ id := "1", name := "d.pdf", size := "11 B", file := ⟨"d.pdf", 11⟩,
           pages := some ["alpha beta."],
           isProcessing := false, isProcessed := true }] :=
  c7_claim "revenue growth" [] ⟨.openai, "k", "m"⟩ .exn
    [{ id := "1", name := "d.pdf", size := "11 B", file := ⟨"d.pdf", 11⟩,
       pages := some ["alpha beta."],
       isProcessing := false, isProcessed := true }]
    ⟨.transformers, none, none⟩ .exn
    (by decide) (by decide) (by decide)

/-- Claim C8, counterexample: the part_002 iteration of `processPDFDocument`
does not resolve on extraction failure: it rethrows an error naming the
document, so the unqualified claim fails on that iteration. -/
theorem c8_counterexample :
    V1.processPDFDocument
        { id := "1", name := "d.pdf", size := "0.1 KB", file := ⟨"d.pdf", 100⟩ }
        (.exn "RangeError: bad XRef entry") =
      Except.error "Failed to process d.pdf: RangeError: bad XRef entry" := rfl

/-- Claim C8 (amended): in the current PDFServices.ts, extraction failure
resolves to the document marked not processing, not processed, with an error
message naming it, and the batch result of any sibling is a function of that
sibling`s own outcome only; in the part_002 iteration `processPDFDocument`
instead rethrows an error naming the document. -/
theorem c8_claim (doc : V2.PDFDocument) (e : String)
    (doc1 : V1.PDFDocument) (e1 : String)
    (documents : List V2.PDFDocument)
    (outcomes1 outcomes2 : List ExtractOutcome) (i : Nat)
    (hio : outcomes1[i]? = outcomes2[i]?) :
    V2.processPDFDocument doc (.exn e) =
      { doc with
        isProcessing := false,
        isProcessed := false,
        error := some ("Failed to process " ++ doc.name ++ ": " ++ e) } ∧
    (V2.processBatch documents outcomes1)[i]? =
      (V2.processBatch documents outcomes2)[i]? ∧
    V1.processPDFDocument doc1 (.exn e1) =
      Except.error ("Failed to process " ++ doc1.name ++ ": " ++ e1) := by
  refine ⟨rfl, ?_, rfl⟩
  unfold V2.processBatch
  rw [List.getElem?_zipWith, List.getElem?_zipWith, hio]

/-- Witness for C8 at concrete inputs: two batches agreeing on the first
outcome and differing on the second; the first result is unaffected. -/
theorem c8_witness :
    V2.processPDFDocument
        { id := "1", name := "v.pdf", size := "10 B", file := ⟨"v.pdf", 10⟩,
          isProcessing := true, isProcessed := false }
        (.exn "boom") =
      { id := "1", name := "v.pdf", size := "10 B", file := ⟨"v.pdf", 10⟩,
        isProcessing := false, isProcessed := false,
        error := some "Failed to process v.pdf: boom" } ∧
    (V2.processBatch
        [{ id := "1", name := "v.pdf", size := "10 B", file := ⟨"v.pdf", 10⟩,
           isProcessing := true, isProcessed := false },
         { id := "2", name := "w.pdf", size := "10 B", file := ⟨"w.pdf", 10⟩,
           isProcessing := true, isProcessed := false }]
        [.exn "boom", .ok ["page text"]])[0]? =
      (V2.processBatch
        [{ id := "1", name := "v.pdf", size := "10 B", file := ⟨"v.pdf", 10⟩,
           isProcessing := true, isProcessed := false },
         { id := "2", name := "w.pdf", size := "10 B", file := ⟨"w.pdf", 10⟩,
           isProcessing := true, isProcessed := false }]
        [.exn "boom", .exn "other"])[0]? ∧
    V1.processPDFDocument
        { id := "3", name := "u.pdf", size := "10 B", file := ⟨"u.pdf", 10⟩ }
        (.exn "crash") =
      Except.error ("Failed to process " ++ "u.pdf" ++ ": " ++ "crash") :=
  (c8_claim
    { id := "1", name := "v.pdf", size := "10 B", file := ⟨"v.pdf", 10⟩,
      isProcessing := true, isProcessed := false } "boom"
    { id := "3", name := "u.pdf", size := "10 B", file := ⟨"u.pdf", 10⟩ } "crash"
    [{ id := "1", name := "v.pdf", size := "10 B", file := ⟨"v.pdf", 10⟩,
       isProcessing := true, isProcessed := false },
     { id := "2", name := "w.pdf", size := "10 B", file := ⟨"w.pdf", 10⟩,
       isProcessing := true, isProcessed := false }]
    [.exn "boom", .ok ["page text"]] [.exn "boom", .exn "other"] 0 rfl)

/-- Claim C9: for identical question, documents and configuration, the
returned sources are identical whatever the two network outcomes were
(deterministic ranking independent of the provider); under the local
strategy the whole result, answer text included, is identical: the local
computation is a deterministic function of its inputs. -/
theorem c9_claim (question : String) (documents : List V2.PDFDocument)
    (aiConfig : V2.AIConfig) (outcome1 outcome2 : FetchOutcome) :
    (V2.generateAnswerFromDocuments question documents aiConfig outcome1).sources =
      (V2.generateAnswerFromDocuments question documents aiConfig outcome2).sources ∧
    (V2.localOnly aiConfig = true →
      V2.generateAnswerFromDocuments question documents aiConfig outcome1 =
        V2.generateAnswerFromDocuments question documents aiConfig outcome2) := by
  by_cases h1 : documents.length = 0
  · simp [V2.generateAnswerFromDocuments, h1]
  · by_cases h2 : (documents.filter (fun d => d.isProcessing)).length > 0
    · simp [V2.generateAnswerFromDocuments, h1, h2]
    · by_cases h3 : (documents.filter (fun d => !d.isProcessed)).length > 0
      · simp [V2.generateAnswerFromDocuments, h1, h2, h3]
      · constructor
        · simp [V2.generateAnswerFromDocuments, h1, h2, h3]
        · intro h
          simp [V2.generateAnswerFromDocuments, h1, h2, h3,
            dispatch_local question documents aiConfig outcome1 h,
            dispatch_local question documents aiConfig outcome2 h]

/-- Witness for C9 at concrete inputs: a local configuration and two
different network outcomes give byte-identical results. -/
theorem c9_witness :
    V2.localOnly ⟨.transformers, none, none⟩ = true ∧
    (V2.generateAnswerFromDocuments "hello question"
        [{ id := "1", name := "d.pdf", size := "11 B", file := ⟨"d.pdf", 11⟩,
           pages := some ["hello text."],
           isProcessing := false, isProcessed := true }]
        ⟨.transformers, none, none⟩ (.ok "x")).sources =
      (V2.generateAnswerFromDocuments "hello question"
        [{ id := "1", name := "d.pdf", size := "11 B", file := ⟨"d.pdf", 11⟩,
           pages := some ["hello text."],
           isProcessing := false, isProcessed := true }]
        ⟨.transformers, none, none⟩ .exn).sources ∧
    V2.generateAnswerFromDocuments "hello question"
        [{ id := "1", name := "d.pdf", size := "11 B", file := ⟨"d.pdf", 11⟩,
           pages := some ["hello text."],
           isProcessing := false, isProcessed := true }]
        ⟨.transformers, none, none⟩ (.ok "x") =
      V2.generateAnswerFromDocuments "hello question"
        [{ id := "1", name := "d.pdf", size := "11 B", file := ⟨"d.pdf", 11⟩,
           pages := some ["hello text."],
           isProcessing := false, isProcessed := true }]
        ⟨.transformers, none, none⟩ .exn :=
  ⟨rfl,
    (c9_claim "hello question"
      [{ id := "1", name := "d.pdf", size := "11 B", file := ⟨"d.pdf", 11⟩,
         pages := some ["hello text."],
         isProcessing := false, isProcessed := true }]
      ⟨.transformers, none, none⟩ (.ok "x") .exn).1,
    (c9_claim "hello question"
      [{ id := "1", name := "d.pdf", size := "11 B", file := ⟨"d.pdf", 11⟩,
         pages := some ["hello text."],
         isProcessing := false, isProcessed := true }]
      ⟨.transformers, none, none⟩ (.ok "x") .exn).2 rfl⟩

/-- Claim C10: every record returned by `createPDFDocument` is processing,
not processed, and has no pages; consequently any document set containing
such a fresh record short-circuits to the still-being-processed message,
which names the fresh document, with an empty sources list, independently of
the network outcome. -/
theorem c10_claim (freshId : String) (file : FileInfo)
    (pre post : List V2.PDFDocument) (question : String)
    (aiConfig : V2.AIConfig) (outcome : FetchOutcome) :
    (V2.createPDFDocument freshId file).isProcessing = true ∧
    (V2.createPDFDocument freshId file).isProcessed = false ∧
    (V2.createPDFDocument freshId file).pages = none ∧
    V2.generateAnswerFromDocuments question
        (pre ++ V2.createPDFDocument freshId file :: post) aiConfig outcome =
      ⟨question,
        V2.processingMsg (pre ++ V2.createPDFDocument freshId file :: post),
        []⟩ ∧
    (∃ s t,
      V2.processingMsg (pre ++ V2.createPDFDocument freshId file :: post) =
        s ++ file.name ++ t) := by
  have hmem : V2.createPDFDocument freshId file ∈
      (pre ++ V2.createPDFDocument freshId file :: post).filter
        (fun d => d.isProcessing) := by
    rw [List.mem_filter]
    exact ⟨List.mem_append_right _ (List.mem_cons_self _ _), rfl⟩
  have hlen : ((pre ++ V2.createPDFDocument freshId file :: post).filter
      (fun d => d.isProcessing)).length > 0 :=
    List.length_pos_of_mem hmem
  refine ⟨rfl, rfl, rfl, processing_short_circuit _ _ _ _ hlen, ?_⟩
  have hname : file.name ∈
      ((pre ++ V2.createPDFDocument freshId file :: post).filter
        (fun d => d.isProcessing)).map (fun d => d.name) :=
    List.mem_map_of_mem _ hmem
  obtain ⟨s, t, hst⟩ := join_decomp ", " file.name _ hname
  refine ⟨"Some documents (" ++ s,
    t ++ ") are still being processed. Please wait for processing to complete.",
    ?_⟩
  unfold V2.processingMsg
  rw [hst]
  exact strAppend_assoc_chain _ _ _ _ _

end PDFGenie
